import Mathlib

/-!
Shallow embedding of src/watcher.py (Nginx log watcher for blue/green
deployment).  Pure fragments of the Python code become Lean functions;
the module-level mutable state (last_pool, request_window,
last_alert_times) becomes an explicit state record threaded through the
step functions.  Wall-clock reads (datetime.now) become explicit rational
time parameters, and the outcome of the HTTP post to Slack becomes an
explicit boolean parameter, since the code only branches on
success/failure of that call.
-/

namespace Watcher

/-- Character class of the Python regex class backslash-w (ASCII). -/
def pyIsWordChar (c : Char) : Bool :=
  c.isAlphanum || c == '_'

/-- Character class of the Python regex class backslash-s (ASCII). -/
def pyIsSpace (c : Char) : Bool :=
  c == ' ' || c == '\t' || c == '\n' || c == '\x0b' || c == '\x0c' || c == '\r'

/-- Character class for the release token: word chars, dash, dot. -/
def isRelChar (c : Char) : Bool :=
  pyIsWordChar c || c == '-' || c == '.'

/-- Character class for the upstream address token: digits, dot, colon. -/
def isAddrChar (c : Char) : Bool :=
  c.isDigit || c == '.' || c == ':'

/-- Character class for the request_time token: digits and dot. -/
def isDigitDot (c : Char) : Bool :=
  c.isDigit || c == '.'

/-- The double-quote character. -/
def quoteChar : Char := Char.ofNat 34

/-- Does the first list occur literally at the head of the second? -/
def startsWithChars : List Char → List Char → Bool
  | [], _ => true
  | _ :: _, [] => false
  | k :: ks, c :: cs => k == c && startsWithChars ks cs

/-- One attempt of the pattern key(cls+) at the head of the input:
the key must occur literally, followed by at least one character of the
class; the group is the maximal run of class characters (greedy). -/
def matchKeyAt (key : List Char) (cls : Char → Bool) (l : List Char) :
    Option (List Char) :=
  if startsWithChars key l then
    let g := (l.drop key.length).takeWhile cls
    if g.length ≥ 1 then some g else none
  else none

/-- Leftmost search of the pattern key(cls+), as re.search does: try each
position left to right, return the first group that matches. -/
def searchKey (key : List Char) (cls : Char → Bool) : List Char → Option (List Char)
  | [] => none
  | c :: rest =>
    match matchKeyAt key cls (c :: rest) with
    | some g => some g
    | none => searchKey key cls rest

/-- One attempt, at the head of the input, of the status pattern: a quote,
one or more uppercase letters, whitespace, one or more non-quote
characters, a quote, whitespace, then the captured digit run.  The
character classes at each boundary make greedy matching deterministic. -/
def matchStatusAt (l : List Char) : Option (List Char) :=
  match l with
  | [] => none
  | c :: rest =>
    if c == quoteChar then
      let ups := rest.takeWhile (fun d => 'A' ≤ d && d ≤ 'Z')
      if ups.length ≥ 1 then
        let r1 := rest.drop ups.length
        match r1 with
        | [] => none
        | d :: _ =>
          if pyIsSpace d then
            let body := r1.takeWhile (fun e => !(e == quoteChar))
            if body.length ≥ 2 then
              match r1.drop body.length with
              | [] => none
              | _q :: r3 =>
                let sp := r3.takeWhile pyIsSpace
                if sp.length ≥ 1 then
                  let ds := (r3.drop sp.length).takeWhile Char.isDigit
                  if ds.length ≥ 1 then some ds else none
                else none
            else none
          else none
      else none
    else none

/-- Leftmost search for the HTTP status pattern. -/
def searchStatus : List Char → Option (List Char)
  | [] => none
  | c :: rest =>
    match matchStatusAt (c :: rest) with
    | some g => some g
    | none => searchStatus rest

/-- Python int() on a run of ASCII digits. -/
def digitsToNat (ds : List Char) : Nat :=
  ds.foldl (fun a c => a * 10 + (c.toNat - 48)) 0

/-- Python float() accepts a digits-and-dots string exactly when it has at
most one dot and at least one digit. -/
def floatTokenOk (g : List Char) : Bool :=
  g.count '.' ≤ 1 && g.any Char.isDigit

/-- Numeric value of a valid digits-and-dots token, as an exact rational. -/
def decValue (g : List Char) : ℚ :=
  let ip := g.takeWhile (fun c => !(c == '.'))
  let fp := g.drop (ip.length + 1)
  (digitsToNat ip : ℚ) + (digitsToNat fp : ℚ) / ((10 : ℚ) ^ fp.length)

/-- Python float() on a digits-and-dots token: fails (raises) exactly when
the token is not a valid float literal. -/
def pyFloatOfToken (g : List Char) : Option ℚ :=
  if floatTokenOk g then some (decValue g) else none

/-- The typed record produced by parse_log_line. -/
structure RequestRecord where
  pool : String
  release : String
  status : Nat
  upstream_status : Nat
  upstream : String
  request_time : ℚ
  is_5xx : Bool
  timestamp : ℚ
deriving Repr, DecidableEq

def strOrUnknown (o : Option (List Char)) : String :=
  match o with
  | some g => String.mk g
  | none => "unknown"

def natOrZero (o : Option (List Char)) : Nat :=
  match o with
  | some g => digitsToNat g
  | none => 0

/-- parse_log_line from src/watcher.py.  Each field extraction is a
leftmost regex search with a default when the pattern is absent.  The only
operation inside the try block that can raise is float() on the matched
request_time token; the except clause then returns None, modelled as
Option.none.  The now parameter stands for datetime.now(). -/
def parse_log_line (now : ℚ) (line : String) : Option RequestRecord :=
  let cs := line.data
  let pool := strOrUnknown (searchKey "pool=".data pyIsWordChar cs)
  let release := strOrUnknown (searchKey "release=".data isRelChar cs)
  let upstream_status := natOrZero (searchKey "upstream_status=".data Char.isDigit cs)
  let status := natOrZero (searchStatus cs)
  let upstream := strOrUnknown (searchKey "upstream=".data isAddrChar cs)
  match searchKey "request_time=".data isDigitDot cs with
  | none =>
    some { pool, release, status, upstream_status, upstream,
           request_time := 0,
           is_5xx := decide (500 ≤ status ∨ 500 ≤ upstream_status),
           timestamp := now }
  | some g =>
    match pyFloatOfToken g with
    | none => none
    | some rt =>
      some { pool, release, status, upstream_status, upstream,
             request_time := rt,
             is_5xx := decide (500 ≤ status ∨ 500 ≤ upstream_status),
             timestamp := now }

/-- Configuration read from environment variables at startup. -/
structure Config where
  slack_webhook_url : Option String
  error_rate_threshold : ℚ
  window_size : Nat
  alert_cooldown_sec : ℚ
  maintenance_mode : Bool

/-- Python truthiness of the webhook setting: None and the empty string
are falsy. -/
def truthyStr : Option String → Bool
  | none => false
  | some s => !(s == "")

/-- The last_alert_times dict: category name to time of last recorded
emission (dict.get returns None both for a missing key and a None value). -/
def AlertTimes : Type := String → Option ℚ

/-- Observable outcome of one send_slack_alert call. -/
inductive AlertOutcome where
  | suppressedNoWebhookOrMaintenance
  | suppressedCooldown
  | sentOk
  | sendFailed
deriving Repr, DecidableEq

/-- send_slack_alert from src/watcher.py.  Branch order follows the
source: first the combined no-webhook-or-maintenance guard, then the
cooldown check against last_alert_times, then the HTTP post, whose
success or failure is the deliveryOk parameter.  The timestamp for the
category is recorded only on the success path, after raise_for_status. -/
def send_slack_alert (cfg : Config) (deliveryOk : Bool) (st : AlertTimes)
    (alert_type : String) (now : ℚ) : AlertTimes × AlertOutcome :=
  if !truthyStr cfg.slack_webhook_url || cfg.maintenance_mode then
    (st, .suppressedNoWebhookOrMaintenance)
  else
    match st alert_type with
    | some last =>
      if now - last < cfg.alert_cooldown_sec then
        (st, .suppressedCooldown)
      else if deliveryOk then
        (fun t => if t = alert_type then some now else st t, .sentOk)
      else (st, .sendFailed)
    | none =>
      if deliveryOk then
        (fun t => if t = alert_type then some now else st t, .sentOk)
      else (st, .sendFailed)

/-- The module-level mutable state of the watcher process. -/
structure WatcherState where
  last_pool : Option String
  request_window : List RequestRecord
  last_alert_times : AlertTimes

/-- Observable outcome of one check_failover call. -/
inductive FailoverResult where
  | noChange
  | initialPool (pool : String)
  | failover (fromPool toPool : String) (outcome : AlertOutcome)
deriving Repr, DecidableEq

/-- check_failover from src/watcher.py: unknown pools are ignored, the
first classified pool initialises last_pool without alerting, and a pool
different from last_pool raises a failover alert and updates last_pool. -/
def check_failover (cfg : Config) (deliveryOk : Bool) (now : ℚ)
    (st : WatcherState) (r : RequestRecord) : WatcherState × FailoverResult :=
  if r.pool = "unknown" then
    (st, .noChange)
  else
    match st.last_pool with
    | none => ({ st with last_pool := some r.pool }, .initialPool r.pool)
    | some lp =>
      if r.pool ≠ lp then
        let s := send_slack_alert cfg deliveryOk st.last_alert_times "failover" now
        ({ st with last_pool := some r.pool, last_alert_times := s.1 },
         .failover lp r.pool s.2)
      else (st, .noChange)

/-- Appending to a deque with maxlen N: the result keeps the last N
elements, so a push into a full deque drops the oldest element. -/
def window_push (N : Nat) (w : List RequestRecord) (r : RequestRecord) :
    List RequestRecord :=
  let w2 := w ++ [r]
  w2.drop (w2.length - N)

/-- Observable outcome of one check_error_rate call.  The alert component
is some outcome exactly when the threshold comparison fired and
send_slack_alert was invoked. -/
inductive ErrorRateResult where
  | insufficientData
  | rate (errorCount totalCount : Nat) (ratePercent : ℚ) (alert : Option AlertOutcome)
deriving Repr, DecidableEq

/-- check_error_rate from src/watcher.py: append the record to the
bounded deque, bail out while the window is not yet full, otherwise count
5xx records, compute the fresh percentage over the current contents and
alert when it exceeds the threshold. -/
def check_error_rate (cfg : Config) (deliveryOk : Bool) (now : ℚ)
    (st : WatcherState) (r : RequestRecord) : WatcherState × ErrorRateResult :=
  let w := window_push cfg.window_size st.request_window r
  let st1 := { st with request_window := w }
  if w.length < cfg.window_size then
    (st1, .insufficientData)
  else
    let error_count := (w.filter (fun q => q.is_5xx)).length
    let error_rate := ((error_count : ℚ) / (w.length : ℚ)) * 100
    if cfg.error_rate_threshold < error_rate then
      let s := send_slack_alert cfg deliveryOk st1.last_alert_times "error_rate" now
      ({ st1 with last_alert_times := s.1 },
       .rate error_count w.length error_rate (some s.2))
    else
      (st1, .rate error_count w.length error_rate none)

/-- One iteration of the processing loop for an already parsed record:
check_failover then check_error_rate, with the delivery outcome of each
potential Slack post given explicitly. -/
structure StepInput where
  record : RequestRecord
  now : ℚ
  failoverDeliveryOk : Bool
  errorRateDeliveryOk : Bool

def process_record (cfg : Config) (st : WatcherState) (inp : StepInput) :
    WatcherState :=
  let st1 := (check_failover cfg inp.failoverDeliveryOk inp.now st inp.record).1
  (check_error_rate cfg inp.errorRateDeliveryOk inp.now st1 inp.record).1

def run_watcher (cfg : Config) (st : WatcherState) (inputs : List StepInput) :
    WatcherState :=
  inputs.foldl (process_record cfg) st

/-- Pushing a list of records, oldest first, into a window. -/
def pushAll (N : Nat) (w : List RequestRecord) (rs : List RequestRecord) :
    List RequestRecord :=
  rs.foldl (window_push N) w

/-- The gate state at process start: no category has an emission time. -/
def gate0 : AlertTimes := fun _ => none

/-- The watcher state at process start. -/
def state0 : WatcherState :=
  { last_pool := none, request_window := [], last_alert_times := gate0 }

end Watcher

namespace Watcher

/-! ### Helper lemmas shared by several claims -/

theorem window_push_length (N : Nat) (w : List RequestRecord) (r : RequestRecord) :
    (window_push N w r).length = min (w.length + 1) N := by
  simp [window_push]
  omega

theorem pushAll_cons (N : Nat) (w : List RequestRecord) (r : RequestRecord)
    (rs : List RequestRecord) :
    pushAll N w (r :: rs) = pushAll N (window_push N w r) rs := rfl

theorem pushAll_length_full (N : Nat) (rs : List RequestRecord) :
    ∀ w : List RequestRecord, w.length ≤ N → N ≤ w.length + rs.length →
      (pushAll N w rs).length = N := by
  induction rs with
  | nil =>
    intro w h1 h2
    simp [pushAll] at h2 ⊢
    omega
  | cons r rs ih =>
    intro w h1 h2
    rw [pushAll_cons]
    have hp := window_push_length N w r
    simp only [List.length_cons] at h2
    exact ih (window_push N w r) (by omega) (by omega)

end Watcher

/-- C4: for every window of capacity N at least 1, the length never
exceeds N; after N plus k pushes from the empty start state the window
length (the reported totalCount) is exactly N; and a push into a full
window evicts the oldest record before appending the new one, so arrival
order equals eviction order. -/
theorem C4_window_capacity (N : Nat) (hN : 1 ≤ N) :
    (∀ (w : List Watcher.RequestRecord) (r : Watcher.RequestRecord),
       (Watcher.window_push N w r).length ≤ N) ∧
    (∀ rs : List Watcher.RequestRecord, N ≤ rs.length →
       (Watcher.pushAll N [] rs).length = N) ∧
    (∀ (w : List Watcher.RequestRecord) (r : Watcher.RequestRecord),
       w.length = N → Watcher.window_push N w r = w.drop 1 ++ [r]) := by
  refine ⟨?_, ?_, ?_⟩
  · intro w r
    rw [Watcher.window_push_length]
    omega
  · intro rs hrs
    exact Watcher.pushAll_length_full N rs [] (by simp) (by simpa using hrs)
  · intro w r hw
    have h1 : (w ++ [r]).length - N = 1 := by simp [hw]
    simp only [Watcher.window_push, h1]
    rw [List.drop_append_of_le_length (by omega)]

/-- C4 witness: with capacity 2, three pushes from empty leave length 2,
a push never exceeds 2, and a push into a full window drops the head. -/
theorem C4_window_capacity_witness :
    1 ≤ 2 ∧
    (Watcher.pushAll 2 []
      [{ pool := "blue", release := "r1", status := 200, upstream_status := 200,
         upstream := "10.0.0.1", request_time := 0, is_5xx := false, timestamp := 0 },
       { pool := "blue", release := "r1", status := 200, upstream_status := 200,
         upstream := "10.0.0.1", request_time := 0, is_5xx := false, timestamp := 1 },
       { pool := "green", release := "r2", status := 500, upstream_status := 200,
         upstream := "10.0.0.2", request_time := 0, is_5xx := true, timestamp := 2 }]).length = 2 :=
  ⟨by decide, (C4_window_capacity 2 (by decide)).2.1 _ (by decide)⟩

/-- C5: a push reports InsufficientData exactly when the window contents
after the push still hold fewer than N records, and whenever a rate is
reported its totalCount equals the capacity N, so a rate is only ever
reported on a full window. -/
theorem C5_rate_only_when_full (cfg : Watcher.Config) (dOk : Bool) (now : ℚ)
    (st : Watcher.WatcherState) (r : Watcher.RequestRecord) :
    ((Watcher.check_error_rate cfg dOk now st r).2 = .insufficientData ↔
       (Watcher.window_push cfg.window_size st.request_window r).length < cfg.window_size) ∧
    (∀ ec tc rp a,
       (Watcher.check_error_rate cfg dOk now st r).2 = .rate ec tc rp a →
       tc = cfg.window_size) := by
  have hlen := Watcher.window_push_length cfg.window_size st.request_window r
  simp only [Watcher.check_error_rate]
  by_cases hfull :
      (Watcher.window_push cfg.window_size st.request_window r).length < cfg.window_size
  · simp [hfull]
  · simp only [hfull, if_false]
    constructor
    · split <;> simp
    · intro ec tc rp a h
      split at h <;> simp_all

namespace Watcher

def recBlue : RequestRecord :=
  { pool := "blue", release := "r1", status := 200, upstream_status := 200,
    upstream := "10.0.0.1", request_time := 0, is_5xx := false, timestamp := 0 }

def cfgSmall : Config :=
  { slack_webhook_url := some "https://hooks.slack.example/T0",
    error_rate_threshold := 2, window_size := 3,
    alert_cooldown_sec := 300, maintenance_mode := false }

end Watcher

/-- C3: a record with pool unknown leaves the tracker state untouched and
yields no transition; the first record with a classified pool initialises
the tracker without an alert; and when the tracker holds pool p, a record
with a different classified pool q triggers a failover event from p to q
and updates the current pool to q (pools compared as exact strings). -/
theorem C3_failover_machine (cfg : Watcher.Config) (dOk : Bool) (now : ℚ)
    (st : Watcher.WatcherState) (r : Watcher.RequestRecord) :
    (r.pool = "unknown" →
       Watcher.check_failover cfg dOk now st r = (st, .noChange)) ∧
    (r.pool ≠ "unknown" → st.last_pool = none →
       Watcher.check_failover cfg dOk now st r
         = ({ st with last_pool := some r.pool }, .initialPool r.pool)) ∧
    (∀ p, r.pool ≠ "unknown" → st.last_pool = some p → r.pool ≠ p →
       (Watcher.check_failover cfg dOk now st r).1.last_pool = some r.pool ∧
       ∃ oc, (Watcher.check_failover cfg dOk now st r).2
               = .failover p r.pool oc) := by
  refine ⟨?_, ?_, ?_⟩
  · intro h
    simp [Watcher.check_failover, h]
  · intro h1 h2
    simp [Watcher.check_failover, h1, h2]
  · intro p h1 h2 h3
    simp [Watcher.check_failover, h1, h2, h3]

namespace Watcher

def recGreen : RequestRecord :=
  { pool := "green", release := "r2", status := 500, upstream_status := 200,
    upstream := "10.0.0.2", request_time := 0, is_5xx := true, timestamp := 1 }

def recUnknown : RequestRecord :=
  { pool := "unknown", release := "unknown", status := 0, upstream_status := 0,
    upstream := "unknown", request_time := 0, is_5xx := false, timestamp := 2 }

def stBlue : WatcherState :=
  { last_pool := some "blue", request_window := [], last_alert_times := gate0 }

end Watcher

/-- C3 witness: an unknown record leaves the initial state unchanged, the
first classified record initialises the pool to blue, and from pool blue
a green record moves the tracker to green. -/
theorem C3_failover_machine_witness :
    Watcher.check_failover Watcher.cfgSmall true 0 Watcher.state0 Watcher.recUnknown
      = (Watcher.state0, .noChange) ∧
    Watcher.check_failover Watcher.cfgSmall true 0 Watcher.state0 Watcher.recBlue
      = ({ Watcher.state0 with last_pool := some "blue" }, .initialPool "blue") ∧
    (Watcher.check_failover Watcher.cfgSmall true 0 Watcher.stBlue Watcher.recGreen).1.last_pool
      = some "green" :=
  ⟨(C3_failover_machine Watcher.cfgSmall true 0 Watcher.state0 Watcher.recUnknown).1 rfl,
   (C3_failover_machine Watcher.cfgSmall true 0 Watcher.state0 Watcher.recBlue).2.1
     (by decide) rfl,
   ((C3_failover_machine Watcher.cfgSmall true 0 Watcher.stBlue Watcher.recGreen).2.2
     "blue" (by decide) rfl (by decide)).1⟩

/-- C8: with the maintenance flag set, every call is suppressed by the
first guard, unconditionally: the state is unchanged and the outcome is
the maintenance suppression, for any category, time and cooldown state,
in particular even when a cooldown is simultaneously active, showing the
maintenance check is applied before the cooldown check. -/
theorem C8_maintenance_suppression (cfg : Watcher.Config) (dOk : Bool)
    (st : Watcher.AlertTimes) (cat : String) (now : ℚ)
    (hm : cfg.maintenance_mode = true) :
    Watcher.send_slack_alert cfg dOk st cat now
      = (st, .suppressedNoWebhookOrMaintenance) ∧
    (∀ last, st cat = some last → now - last < cfg.alert_cooldown_sec →
       (Watcher.send_slack_alert cfg dOk st cat now).2
         = .suppressedNoWebhookOrMaintenance) := by
  simp [Watcher.send_slack_alert, hm]

namespace Watcher

def cfgMaint : Config :=
  { slack_webhook_url := some "https://hooks.slack.example/T1",
    error_rate_threshold := 2, window_size := 3,
    alert_cooldown_sec := 300, maintenance_mode := true }

/-- A gate state whose failover category is inside a cooldown at time 10. -/
def gateCool : AlertTimes := fun t => if t = "failover" then some 0 else none

end Watcher

/-- C8 witness: under maintenance mode, a first-ever call for a category
is suppressed, and so is a call whose category is in an active cooldown. -/
theorem C8_maintenance_suppression_witness :
    Watcher.cfgMaint.maintenance_mode = true ∧
    Watcher.send_slack_alert Watcher.cfgMaint true Watcher.gateCool "failover" 10
      = (Watcher.gateCool, .suppressedNoWebhookOrMaintenance) :=
  ⟨rfl,
   (C8_maintenance_suppression Watcher.cfgMaint true Watcher.gateCool "failover" 10 rfl).1⟩

namespace Watcher

/-- When the first guard fires (no webhook or maintenance), the call
returns immediately with the state unchanged. -/
theorem send_gate_blocked (cfg : Config) (dOk : Bool) (st : AlertTimes)
    (cat : String) (now : ℚ)
    (h : (!truthyStr cfg.slack_webhook_url || cfg.maintenance_mode) = true) :
    send_slack_alert cfg dOk st cat now = (st, .suppressedNoWebhookOrMaintenance) := by
  simp [send_slack_alert, h]

theorem check_failover_gate_of_no_webhook (cfg : Config) (dOk : Bool) (now : ℚ)
    (st : WatcherState) (r : RequestRecord)
    (hweb : truthyStr cfg.slack_webhook_url = false) :
    (check_failover cfg dOk now st r).1.last_alert_times = st.last_alert_times := by
  have hs := send_gate_blocked cfg dOk st.last_alert_times "failover" now (by simp [hweb])
  unfold check_failover
  split
  · rfl
  · split
    · rfl
    · split
      · simp [hs]
      · rfl

theorem check_error_rate_gate_of_no_webhook (cfg : Config) (dOk : Bool) (now : ℚ)
    (st : WatcherState) (r : RequestRecord)
    (hweb : truthyStr cfg.slack_webhook_url = false) :
    (check_error_rate cfg dOk now st r).1.last_alert_times = st.last_alert_times := by
  have hs := send_gate_blocked cfg dOk st.last_alert_times "error_rate" now (by simp [hweb])
  unfold check_error_rate
  dsimp only
  split
  · rfl
  · split
    · simp [hs]
    · rfl

theorem run_watcher_cons (cfg : Config) (st : WatcherState) (i : StepInput)
    (t : List StepInput) :
    run_watcher cfg st (i :: t) = run_watcher cfg (process_record cfg st i) t := rfl

theorem run_watcher_gate_of_no_webhook (cfg : Config)
    (hweb : truthyStr cfg.slack_webhook_url = false) :
    ∀ (inputs : List StepInput) (st : WatcherState),
      (run_watcher cfg st inputs).last_alert_times = st.last_alert_times := by
  intro inputs
  induction inputs with
  | nil => intro st; rfl
  | cons i t ih =>
    intro st
    rw [run_watcher_cons, ih]
    show (check_error_rate cfg _ _ _ _).1.last_alert_times = _
    rw [check_error_rate_gate_of_no_webhook cfg _ _ _ _ hweb,
        check_failover_gate_of_no_webhook cfg _ _ _ _ hweb]

end Watcher

/-- C10: when the Slack webhook URL is not configured (unset or empty,
hence falsy), every alert attempt of every category is suppressed by the
first guard with the gate state unchanged, and consequently over any run
of the watcher no cooldown timestamp is ever recorded for any category:
starting from the initial state the map of last-emission times stays
empty. -/
theorem C10_no_webhook_suppression (cfg : Watcher.Config)
    (hweb : Watcher.truthyStr cfg.slack_webhook_url = false) :
    (∀ (dOk : Bool) (st : Watcher.AlertTimes) (cat : String) (now : ℚ),
       Watcher.send_slack_alert cfg dOk st cat now
         = (st, .suppressedNoWebhookOrMaintenance)) ∧
    (∀ (inputs : List Watcher.StepInput) (st : Watcher.WatcherState),
       (Watcher.run_watcher cfg st inputs).last_alert_times
         = st.last_alert_times) ∧
    (∀ (inputs : List Watcher.StepInput) (cat : String),
       (Watcher.run_watcher cfg Watcher.state0 inputs).last_alert_times cat
         = none) := by
  refine ⟨?_, Watcher.run_watcher_gate_of_no_webhook cfg hweb, ?_⟩
  · intro dOk st cat now
    exact Watcher.send_gate_blocked cfg dOk st cat now (by simp [hweb])
  · intro inputs cat
    rw [Watcher.run_watcher_gate_of_no_webhook cfg hweb]
    rfl

namespace Watcher

def cfgNoHook : Config :=
  { slack_webhook_url := none,
    error_rate_threshold := 2, window_size := 3,
    alert_cooldown_sec := 300, maintenance_mode := false }

def inpGreen : StepInput :=
  { record := recGreen, now := 0, failoverDeliveryOk := true,
    errorRateDeliveryOk := true }

end Watcher

/-- C10 witness: with no webhook configured, a call is suppressed with
the state unchanged, and after processing one record from the initial
state no cooldown timestamp exists for the failover category. -/
theorem C10_no_webhook_suppression_witness :
    Watcher.truthyStr Watcher.cfgNoHook.slack_webhook_url = false ∧
    Watcher.send_slack_alert Watcher.cfgNoHook true Watcher.gate0 "failover" 0
      = (Watcher.gate0, .suppressedNoWebhookOrMaintenance) ∧
    (Watcher.run_watcher Watcher.cfgNoHook Watcher.state0
        [Watcher.inpGreen]).last_alert_times "failover" = none :=
  ⟨rfl,
   (C10_no_webhook_suppression Watcher.cfgNoHook rfl).1 true Watcher.gate0 "failover" 0,
   (C10_no_webhook_suppression Watcher.cfgNoHook rfl).2.2 [Watcher.inpGreen] "failover"⟩

namespace Watcher

def cfgHook : Config :=
  { slack_webhook_url := some "https://hooks.slack.example/T2",
    error_rate_threshold := 2, window_size := 3,
    alert_cooldown_sec := 300, maintenance_mode := false }

end Watcher

/-- C1 counterexample: with a webhook configured and maintenance off, a
first call for the failover category passes both gate checks (its outcome
is the delivery attempt, which fails), yet the last-emission timestamp of
the category is still absent afterwards; and a second call one second
later, well inside the 300 second cooldown, is permitted again and
delivers, so the failed attempt did not count against the cooldown. -/
theorem C1_counterexample :
    (Watcher.send_slack_alert Watcher.cfgHook false Watcher.gate0 "failover" 0).2
      = .sendFailed ∧
    (Watcher.send_slack_alert Watcher.cfgHook false Watcher.gate0 "failover" 0).1
      "failover" = none ∧
    (Watcher.send_slack_alert Watcher.cfgHook true
      (Watcher.send_slack_alert Watcher.cfgHook false Watcher.gate0 "failover" 0).1
      "failover" 1).2 = .sentOk := by
  decide

/-- C1 amended: when the gate permits an alert, the category's
last-emission timestamp is updated to now only if the downstream delivery
succeeds; a failed delivery leaves the gate state completely unchanged,
so a failed attempt does not count against the cooldown. -/
theorem C1_timestamp_only_on_success (cfg : Watcher.Config) (dOk : Bool)
    (st : Watcher.AlertTimes) (cat : String) (now : ℚ) :
    ((Watcher.send_slack_alert cfg dOk st cat now).2 = .sendFailed →
       (Watcher.send_slack_alert cfg dOk st cat now).1 = st) ∧
    ((Watcher.send_slack_alert cfg dOk st cat now).2 = .sentOk →
       (Watcher.send_slack_alert cfg dOk st cat now).1
         = fun t => if t = cat then some now else st t) := by
  unfold Watcher.send_slack_alert
  split
  · simp
  · split
    · split
      · simp
      · split <;> simp
    · split <;> simp

/-- C1 amended witness: a failed first delivery leaves the empty gate
state unchanged, and a successful first delivery records the call time
for the category. -/
theorem C1_timestamp_only_on_success_witness :
    ((Watcher.send_slack_alert Watcher.cfgHook false Watcher.gate0 "failover" 0).1
       = Watcher.gate0) ∧
    ((Watcher.send_slack_alert Watcher.cfgHook true Watcher.gate0 "failover" 0).1
       = fun t => if t = "failover" then some 0 else Watcher.gate0 t) :=
  ⟨(C1_timestamp_only_on_success Watcher.cfgHook false Watcher.gate0 "failover" 0).1
     (by decide),
   (C1_timestamp_only_on_success Watcher.cfgHook true Watcher.gate0 "failover" 0).2
     (by decide)⟩

namespace Watcher

/-- Scenario C of the spec, evaluated on the embedded gate. -/
theorem scenarioC_steps :
    (Watcher.send_slack_alert Watcher.cfgHook true Watcher.gate0
        "error_rate" 0).2 = .sentOk ∧
    (Watcher.send_slack_alert Watcher.cfgHook true
        (Watcher.send_slack_alert Watcher.cfgHook true Watcher.gate0
          "error_rate" 0).1 "error_rate" 100).2 = .suppressedCooldown ∧
    (Watcher.send_slack_alert Watcher.cfgHook true
        (Watcher.send_slack_alert Watcher.cfgHook true
          (Watcher.send_slack_alert Watcher.cfgHook true Watcher.gate0
            "error_rate" 0).1 "error_rate" 100).1 "error_rate" 301).2
      = .sentOk := by
  have hs : ¬ ("https://hooks.slack.example/T2" = "") := by decide
  have h1 : ((100 : ℚ) < 300) := by norm_num
  have h2 : ¬ ((301 : ℚ) < 300) := by norm_num
  simp [Watcher.send_slack_alert, Watcher.cfgHook, Watcher.gate0,
    Watcher.truthyStr, hs, h1, h2]

end Watcher

/-- C7: with a webhook configured and maintenance off, a call for a
category with a recorded last-emission time is suppressed by cooldown
exactly when now minus that time is below the cooldown duration; a first
successful emission then makes a second call within the cooldown
suppressed and a later call after the cooldown attempt delivery again;
and Scenario C holds concretely: with a 300 second cooldown, calls for
error_rate at times 0, 100 and 301 yield emitted, suppressed, emitted. -/
theorem C7_cooldown_behaviour (cfg : Watcher.Config) (dOk : Bool)
    (st : Watcher.AlertTimes) (cat : String) (now last : ℚ)
    (hweb : Watcher.truthyStr cfg.slack_webhook_url = true)
    (hm : cfg.maintenance_mode = false)
    (hlast : st cat = some last) :
    ((Watcher.send_slack_alert cfg dOk st cat now).2 = .suppressedCooldown ↔
       now - last < cfg.alert_cooldown_sec) ∧
    (∀ st2 : Watcher.AlertTimes, st2 cat = none →
       (Watcher.send_slack_alert cfg true st2 cat now).2 = .sentOk ∧
       (∀ (now2 : ℚ) (d2 : Bool), now2 - now < cfg.alert_cooldown_sec →
          (Watcher.send_slack_alert cfg d2
            (Watcher.send_slack_alert cfg true st2 cat now).1 cat now2).2
            = .suppressedCooldown) ∧
       (∀ now3 : ℚ, ¬ now3 - now < cfg.alert_cooldown_sec →
          (Watcher.send_slack_alert cfg true
            (Watcher.send_slack_alert cfg true st2 cat now).1 cat now3).2
            = .sentOk)) ∧
    ((Watcher.send_slack_alert Watcher.cfgHook true Watcher.gate0
        "error_rate" 0).2 = .sentOk ∧
     (Watcher.send_slack_alert Watcher.cfgHook true
        (Watcher.send_slack_alert Watcher.cfgHook true Watcher.gate0
          "error_rate" 0).1 "error_rate" 100).2 = .suppressedCooldown ∧
     (Watcher.send_slack_alert Watcher.cfgHook true
        (Watcher.send_slack_alert Watcher.cfgHook true
          (Watcher.send_slack_alert Watcher.cfgHook true Watcher.gate0
            "error_rate" 0).1 "error_rate" 100).1 "error_rate" 301).2
       = .sentOk) := by
  refine ⟨?_, ?_, Watcher.scenarioC_steps⟩
  · simp only [Watcher.send_slack_alert, hweb, hm, Bool.not_true, Bool.false_or,
      Bool.false_eq_true, if_false, hlast]
    split
    · next h => simpa using h
    · next h => split <;> simpa using h
  · intro st2 h0
    refine ⟨?_, ?_, ?_⟩
    · simp [Watcher.send_slack_alert, hweb, hm, h0]
    · intro now2 d2 h2
      simp [Watcher.send_slack_alert, hweb, hm, h0, h2]
    · intro now3 h3
      simp [Watcher.send_slack_alert, hweb, hm, h0, h3]

/-- C7 witness: a concrete instantiation of the cooldown characterisation
with a recorded emission at time 0 and a call at time 100, suppressed
since 100 is within the 300 second cooldown. -/
theorem C7_cooldown_behaviour_witness :
    Watcher.truthyStr Watcher.cfgHook.slack_webhook_url = true ∧
    Watcher.cfgHook.maintenance_mode = false ∧
    Watcher.gateCool "failover" = some 0 ∧
    ((Watcher.send_slack_alert Watcher.cfgHook true Watcher.gateCool
        "failover" 100).2 = .suppressedCooldown ↔
      (100 : ℚ) - 0 < Watcher.cfgHook.alert_cooldown_sec) :=
  ⟨by decide, rfl, by decide,
   (C7_cooldown_behaviour Watcher.cfgHook true Watcher.gateCool "failover" 100 0
     (by decide) rfl (by decide)).1⟩

/-- C2 counterexample: the line request_time=. has a request_time token
matched by the pattern (a single dot) that is not a valid float, so the
float conversion raises and the whole parse returns a failure, not a
record with the documented default. -/
theorem C2_counterexample :
    Watcher.parse_log_line 0 "request_time=." = none := by
  decide

/-- C2 amended: parse returns a record for every line whose request_time
token, when present, is a valid float literal (at most one dot, at least
one digit); in such a record every missing token is replaced by its
documented default (unknown, 0 or 0.0); but a matched malformed
request_time token makes the whole parse fail. -/
theorem C2_parse_defaults_amended (now : ℚ) (line : String) :
    ((Watcher.parse_log_line now line).isSome ↔
       (∀ g, Watcher.searchKey "request_time=".data Watcher.isDigitDot line.data
           = some g → Watcher.floatTokenOk g = true)) ∧
    (∀ rec, Watcher.parse_log_line now line = some rec →
       (Watcher.searchKey "pool=".data Watcher.pyIsWordChar line.data = none →
          rec.pool = "unknown") ∧
       (Watcher.searchKey "release=".data Watcher.isRelChar line.data = none →
          rec.release = "unknown") ∧
       (Watcher.searchKey "upstream_status=".data Char.isDigit line.data = none →
          rec.upstream_status = 0) ∧
       (Watcher.searchStatus line.data = none → rec.status = 0) ∧
       (Watcher.searchKey "upstream=".data Watcher.isAddrChar line.data = none →
          rec.upstream = "unknown") ∧
       (Watcher.searchKey "request_time=".data Watcher.isDigitDot line.data = none →
          rec.request_time = 0)) := by
  cases hrt : Watcher.searchKey "request_time=".data Watcher.isDigitDot line.data with
  | none =>
    constructor
    · simp [Watcher.parse_log_line, hrt]
    · intro rec hrec
      simp only [Watcher.parse_log_line, hrt, Option.some.injEq] at hrec
      subst hrec
      refine ⟨fun h => ?_, fun h => ?_, fun h => ?_, fun h => ?_, fun h => ?_,
        fun _ => rfl⟩ <;>
        simp [Watcher.strOrUnknown, Watcher.natOrZero, h]
  | some g =>
    by_cases hok : Watcher.floatTokenOk g = true
    · constructor
      · simp only [Watcher.parse_log_line, hrt, Watcher.pyFloatOfToken, hok, if_true]
        simp only [Option.isSome_some, true_iff]
        intro g2 hg2
        cases hg2
        exact hok
      · intro rec hrec
        simp only [Watcher.parse_log_line, hrt, Watcher.pyFloatOfToken, hok, if_true,
          Option.some.injEq] at hrec
        subst hrec
        refine ⟨fun h => ?_, fun h => ?_, fun h => ?_, fun h => ?_, fun h => ?_,
          fun h => ?_⟩ <;>
          simp_all [Watcher.strOrUnknown, Watcher.natOrZero]
    · constructor
      · simp only [Watcher.parse_log_line, hrt, Watcher.pyFloatOfToken, hok, if_false]
        simp only [Bool.not_eq_true] at hok
        simp only [hok, Bool.false_eq_true, if_false, Option.isSome_none,
          Bool.false_eq_true, false_iff]
        intro hall
        have := hall g rfl
        simp [this] at hok
      · intro rec hrec
        simp only [Watcher.parse_log_line, hrt, Watcher.pyFloatOfToken] at hrec
        simp only [Bool.not_eq_true] at hok
        simp [hok] at hrec

namespace Watcher

/-- The record produced by parsing the line pool=blue. -/
def recPoolOnly : RequestRecord :=
  { pool := "blue", release := "unknown", status := 0, upstream_status := 0,
    upstream := "unknown", request_time := 0, is_5xx := false, timestamp := 0 }

end Watcher

/-- C2 amended witness: a line holding only a pool token parses, and the
parsed record carries the documented defaults for the absent release and
status tokens. -/
theorem C2_parse_defaults_amended_witness :
    Watcher.parse_log_line 0 "pool=blue" = some Watcher.recPoolOnly ∧
    Watcher.recPoolOnly.release = "unknown" ∧
    Watcher.recPoolOnly.status = 0 :=
  ⟨by decide,
   ((C2_parse_defaults_amended 0 "pool=blue").2 Watcher.recPoolOnly (by decide)).2.1
     (by decide),
   ((C2_parse_defaults_amended 0 "pool=blue").2 Watcher.recPoolOnly (by decide)).2.2.2.1
     (by decide)⟩

/-- C6: on a push into a full window the call reports a rate whose
errorCount is the number of records in the current window contents whose
status or upstream status is at least 500 (the isError derivation),
whose ratePercent is 100 times errorCount over totalCount computed fresh
over the current contents, and whose alert candidate is generated (the
gate invoked) exactly when ratePercent strictly exceeds the configured
threshold.  The hypothesis hinv states that the records in the window
carry the derived is_5xx flag, as every record built by parse_log_line
does. -/
theorem C6_error_rate_formula (cfg : Watcher.Config) (dOk : Bool) (now : ℚ)
    (st : Watcher.WatcherState) (r : Watcher.RequestRecord)
    (hN : 1 ≤ cfg.window_size)
    (hfull : st.request_window.length = cfg.window_size)
    (hinv : ∀ x ∈ Watcher.window_push cfg.window_size st.request_window r,
       x.is_5xx = decide (500 ≤ x.status ∨ 500 ≤ x.upstream_status)) :
    (Watcher.check_error_rate cfg dOk now st r).2
      = .rate
          ((Watcher.window_push cfg.window_size st.request_window r).filter
            (fun x => decide (500 ≤ x.status ∨ 500 ≤ x.upstream_status))).length
          cfg.window_size
          (100 * ((((Watcher.window_push cfg.window_size st.request_window r).filter
              (fun x => decide (500 ≤ x.status ∨ 500 ≤ x.upstream_status))).length : ℚ)
            / (cfg.window_size : ℚ)))
          (if cfg.error_rate_threshold <
              100 * ((((Watcher.window_push cfg.window_size st.request_window r).filter
                  (fun x => decide (500 ≤ x.status ∨ 500 ≤ x.upstream_status))).length : ℚ)
                / (cfg.window_size : ℚ))
           then some (Watcher.send_slack_alert cfg dOk st.last_alert_times
                       "error_rate" now).2
           else none) ∧
    ((if cfg.error_rate_threshold <
          100 * ((((Watcher.window_push cfg.window_size st.request_window r).filter
              (fun x => decide (500 ≤ x.status ∨ 500 ≤ x.upstream_status))).length : ℚ)
            / (cfg.window_size : ℚ))
       then some (Watcher.send_slack_alert cfg dOk st.last_alert_times
                   "error_rate" now).2
       else none).isSome ↔
      cfg.error_rate_threshold <
        100 * ((((Watcher.window_push cfg.window_size st.request_window r).filter
            (fun x => decide (500 ≤ x.status ∨ 500 ≤ x.upstream_status))).length : ℚ)
          / (cfg.window_size : ℚ))) := by
  have hw : (Watcher.window_push cfg.window_size st.request_window r).length
      = cfg.window_size := by
    rw [Watcher.window_push_length]; omega
  have hfilter : (Watcher.window_push cfg.window_size st.request_window r).filter
        (fun q => q.is_5xx)
      = (Watcher.window_push cfg.window_size st.request_window r).filter
        (fun x => decide (500 ≤ x.status ∨ 500 ≤ x.upstream_status)) :=
    List.filter_congr hinv
  constructor
  · simp only [Watcher.check_error_rate, hw, lt_irrefl, if_false, hfilter]
    have hrate :
        ((((Watcher.window_push cfg.window_size st.request_window r).filter
            (fun x => decide (500 ≤ x.status ∨ 500 ≤ x.upstream_status))).length : ℚ)
          / (cfg.window_size : ℚ)) * 100
        = 100 * ((((Watcher.window_push cfg.window_size st.request_window r).filter
            (fun x => decide (500 ≤ x.status ∨ 500 ≤ x.upstream_status))).length : ℚ)
          / (cfg.window_size : ℚ)) := by ring
    rw [hrate]
    split <;> rfl
  · split <;> simp_all

namespace Watcher

def stFull : WatcherState :=
  { last_pool := some "blue", request_window := [recBlue, recBlue, recGreen],
    last_alert_times := gate0 }

end Watcher

/-- C6 witness: pushing a 5xx record into a full window of size 3 holding
one prior error reports errorCount 2 of 3, rate two thirds of a hundred,
and generates an alert candidate since the rate exceeds the 2 percent
threshold. -/
theorem C6_error_rate_formula_witness :
    (Watcher.check_error_rate Watcher.cfgSmall true 7 Watcher.stFull Watcher.recGreen).2
      = .rate
          ((Watcher.window_push Watcher.cfgSmall.window_size
              Watcher.stFull.request_window Watcher.recGreen).filter
            (fun x => decide (500 ≤ x.status ∨ 500 ≤ x.upstream_status))).length
          Watcher.cfgSmall.window_size
          (100 * ((((Watcher.window_push Watcher.cfgSmall.window_size
                Watcher.stFull.request_window Watcher.recGreen).filter
              (fun x => decide (500 ≤ x.status ∨ 500 ≤ x.upstream_status))).length : ℚ)
            / (Watcher.cfgSmall.window_size : ℚ)))
          (if Watcher.cfgSmall.error_rate_threshold <
              100 * ((((Watcher.window_push Watcher.cfgSmall.window_size
                    Watcher.stFull.request_window Watcher.recGreen).filter
                  (fun x => decide (500 ≤ x.status ∨ 500 ≤ x.upstream_status))).length : ℚ)
                / (Watcher.cfgSmall.window_size : ℚ))
           then some (Watcher.send_slack_alert Watcher.cfgSmall true
                       Watcher.stFull.last_alert_times "error_rate" 7).2
           else none) :=
  (C6_error_rate_formula Watcher.cfgSmall true 7 Watcher.stFull Watcher.recGreen
    (by decide) (by decide) (by decide)).1

namespace Watcher

theorem check_failover_request_window (cfg : Config) (dOk : Bool) (now : ℚ)
    (st : WatcherState) (r : RequestRecord) :
    (check_failover cfg dOk now st r).1.request_window = st.request_window := by
  unfold check_failover
  split
  · rfl
  · split
    · rfl
    · split <;> rfl

theorem check_failover_last_pool (cfg : Config) (dOk : Bool) (now : ℚ)
    (st : WatcherState) (r : RequestRecord) :
    (check_failover cfg dOk now st r).1.last_pool
      = if r.pool = "unknown" then st.last_pool else some r.pool := by
  unfold check_failover
  split
  · next h => simp [h]
  · next h =>
    split
    · next hl => simp [h, hl]
    · next lp hl =>
      split
      · simp [h]
      · next hne =>
        simp only [ne_eq, Decidable.not_not] at hne
        simp [h, hl, hne]

theorem check_error_rate_request_window (cfg : Config) (dOk : Bool) (now : ℚ)
    (st : WatcherState) (r : RequestRecord) :
    (check_error_rate cfg dOk now st r).1.request_window
      = window_push cfg.window_size st.request_window r := by
  unfold check_error_rate
  dsimp only
  split
  · rfl
  · split <;> rfl

theorem check_error_rate_last_pool (cfg : Config) (dOk : Bool) (now : ℚ)
    (st : WatcherState) (r : RequestRecord) :
    (check_error_rate cfg dOk now st r).1.last_pool = st.last_pool := by
  unfold check_error_rate
  dsimp only
  split
  · rfl
  · split <;> rfl

theorem process_record_last_pool (cfg : Config) (st : WatcherState)
    (inp : StepInput) :
    (process_record cfg st inp).last_pool
      = if inp.record.pool = "unknown" then st.last_pool
        else some inp.record.pool := by
  unfold process_record
  rw [check_error_rate_last_pool, check_failover_last_pool]

theorem process_record_request_window (cfg : Config) (st : WatcherState)
    (inp : StepInput) :
    (process_record cfg st inp).request_window
      = window_push cfg.window_size st.request_window inp.record := by
  unfold process_record
  rw [check_error_rate_request_window, check_failover_request_window]

end Watcher

/-- C9: two-run noninterference.  Two runs over input sequences carrying
the same records, with the same window capacity, agree on the tracker's
current pool and on the window contents, whatever the webhook
configuration, maintenance flag, cooldown duration, threshold, initial
cooldown timestamps and per-call delivery outcomes of each run are:
delivery outcomes and gate suppression never leak into window or tracker
state. -/
theorem C9_noninterference (cfg1 cfg2 : Watcher.Config)
    (hN : cfg1.window_size = cfg2.window_size)
    (inputs1 inputs2 : List Watcher.StepInput)
    (hrec : inputs1.map (fun i => i.record) = inputs2.map (fun i => i.record))
    (st1 st2 : Watcher.WatcherState)
    (hp : st1.last_pool = st2.last_pool)
    (hw : st1.request_window = st2.request_window) :
    (Watcher.run_watcher cfg1 st1 inputs1).last_pool
      = (Watcher.run_watcher cfg2 st2 inputs2).last_pool ∧
    (Watcher.run_watcher cfg1 st1 inputs1).request_window
      = (Watcher.run_watcher cfg2 st2 inputs2).request_window := by
  induction inputs1 generalizing inputs2 st1 st2 with
  | nil =>
    cases inputs2 with
    | nil => exact ⟨hp, hw⟩
    | cons j t2 => simp at hrec
  | cons i t1 ih =>
    cases inputs2 with
    | nil => simp at hrec
    | cons j t2 =>
      simp only [List.map_cons, List.cons.injEq] at hrec
      obtain ⟨hhead, htail⟩ := hrec
      rw [Watcher.run_watcher_cons, Watcher.run_watcher_cons]
      refine ih t2 htail _ _ ?_ ?_
      · rw [Watcher.process_record_last_pool, Watcher.process_record_last_pool,
          hhead, hp]
      · rw [Watcher.process_record_request_window,
          Watcher.process_record_request_window, hhead, hw, hN]

namespace Watcher

def inpGreenFail : StepInput :=
  { record := recGreen, now := 42, failoverDeliveryOk := false,
    errorRateDeliveryOk := false }

end Watcher

/-- C9 witness: processing the same record under a delivering gate and
under a maintenance-silenced gate with failing deliveries leaves the two
runs with the same pool and the same window contents. -/
theorem C9_noninterference_witness :
    (Watcher.run_watcher Watcher.cfgSmall Watcher.state0 [Watcher.inpGreen]).last_pool
      = (Watcher.run_watcher Watcher.cfgMaint Watcher.state0
          [Watcher.inpGreenFail]).last_pool ∧
    (Watcher.run_watcher Watcher.cfgSmall Watcher.state0
        [Watcher.inpGreen]).request_window
      = (Watcher.run_watcher Watcher.cfgMaint Watcher.state0
          [Watcher.inpGreenFail]).request_window :=
  C9_noninterference Watcher.cfgSmall Watcher.cfgMaint rfl
    [Watcher.inpGreen] [Watcher.inpGreenFail] rfl
    Watcher.state0 Watcher.state0 rfl rfl
